import Mathlib

/-!
Shallow embedding of the FIT-file extraction core in
`src/src-tauri/src/fit_parser.rs` (OpenConnectCompanion).

Rust `f64` values are modelled as rationals (the algorithms only add,
subtract, negate and compare, so exact arithmetic is a faithful model of
the per-operation semantics the claims are about); Rust integers are
modelled as `Int`/`Nat` with explicit wrapping where the source casts.
Absolute times are modelled as seconds since the UNIX epoch (`Int`), and
chrono's RFC3339 rendering as an injective decimal rendering; no claim
depends on the concrete string format of a rendered timestamp.
-/

namespace FitCore

/-- The fitparser `Value` variants the source code inspects
(`fit_parser.rs` lines 80-119).  Payload ranges are guaranteed by the
Rust types; `other` stands for every variant none of the coercions
accepts (strings are kept because the sport branches match on them). -/
inductive FitValue where
  | sint8 (v : Int)
  | uint8 (v : Nat)
  | sint16 (v : Int)
  | uint16 (v : Nat)
  | sint32 (v : Int)
  | uint32 (v : Nat)
  | sint64 (v : Int)
  | uint64 (v : Nat)
  | float32 (v : ℚ)
  | float64 (v : ℚ)
  | str (s : String)
  | timestamp (t : Int)
  | other
  deriving DecidableEq, Repr

/-- Rust `u64 as i64`: reinterpret the low 64 bits as signed. -/
def u64_as_i64 (v : Nat) : Int :=
  let m : Nat := v % 2 ^ 64
  if m < 2 ^ 63 then (m : Int) else (m : Int) - 2 ^ 64

/-- Rust `i64 as i32`: wrap into the signed 32-bit range. -/
def i64_as_i32 (v : Int) : Int :=
  let m : Int := v % 2 ^ 32
  if m < 2 ^ 31 then m else m - 2 ^ 32

/-- Rust `i64 as u32`: wrap into the unsigned 32-bit range. -/
def i64_as_u32 (v : Int) : Int := v % 2 ^ 32

/-- `value_to_i64` (`fit_parser.rs` lines 80-92). -/
def value_to_i64 (value : FitValue) : Option Int :=
  match value with
  | .sint8 v => some v
  | .uint8 v => some v
  | .sint16 v => some v
  | .uint16 v => some v
  | .sint32 v => some v
  | .uint32 v => some v
  | .sint64 v => some v
  | .uint64 v => some (u64_as_i64 v)
  | _ => none

/-- `value_to_f64` (`fit_parser.rs` lines 94-108). -/
def value_to_f64 (value : FitValue) : Option ℚ :=
  match value with
  | .float32 v => some v
  | .float64 v => some v
  | .sint8 v => some v
  | .uint8 v => some v
  | .sint16 v => some v
  | .uint16 v => some v
  | .sint32 v => some v
  | .uint32 v => some v
  | .sint64 v => some v
  | .uint64 v => some v
  | _ => none

/-- FIT device epoch offset (`fit_parser.rs` line 64). -/
def FIT_EPOCH_OFFSET : Int := 631065600

/-- `fit_timestamp_to_datetime` (`fit_parser.rs` lines 66-68): device
epoch seconds to an absolute instant. -/
def fit_timestamp_to_datetime (t : Int) : Int := t + FIT_EPOCH_OFFSET

/-- `value_to_timestamp` (`fit_parser.rs` lines 110-119). -/
def value_to_timestamp (value : FitValue) : Option Int :=
  match value with
  | .timestamp dt => some dt
  | .uint32 v => some (fit_timestamp_to_datetime v)
  | .sint32 v => some (fit_timestamp_to_datetime (i64_as_u32 v))
  | _ => none

/-- `semicircles_to_degrees` (`fit_parser.rs` lines 70-72). -/
def semicircles_to_degrees (semicircles : Int) : ℚ :=
  (semicircles : ℚ) * (180 / 2147483648)

/-- `sport_to_string` (`fit_parser.rs` lines 121-146). -/
def sport_to_string (sport_num : Nat) : String :=
  match sport_num with
  | 0 => "generic"
  | 1 => "running"
  | 2 => "cycling"
  | 3 => "transition"
  | 4 => "fitness_equipment"
  | 5 => "swimming"
  | 6 => "basketball"
  | 7 => "soccer"
  | 8 => "tennis"
  | 9 => "american_football"
  | 10 => "training"
  | 11 => "walking"
  | 12 => "cross_country_skiing"
  | 13 => "alpine_skiing"
  | 14 => "snowboarding"
  | 15 => "rowing"
  | 16 => "mountaineering"
  | 17 => "hiking"
  | 18 => "multisport"
  | 19 => "paddling"
  | 20 => "strength_training"
  | _ => "sport_" ++ toString sport_num

/-- Model of chrono's `to_rfc3339` on an instant: an injective decimal
rendering; the claims never inspect the format of a rendered time. -/
def to_rfc3339 (t : Int) : String := toString t

/-- Model of Rust's `str::to_lowercase`: lower-case every character.
(Defined structurally so concrete inputs evaluate; no claim depends on
Unicode special-casing.) -/
def toLowerStr (s : String) : String := ⟨s.data.map Char.toLower⟩

/-- A field of a decoded FIT message: a name plus a typed value. -/
structure FitField where
  name : String
  value : FitValue
  deriving DecidableEq, Repr

/-- A decoded FIT message (`FitDataRecord`): kind tag plus fields. -/
structure FitRecord where
  kind : String
  fields : List FitField
  deriving DecidableEq, Repr

/-- `get_field_value` (`fit_parser.rs` lines 74-78): first field with
the given name. -/
def get_field_value (r : FitRecord) (field_name : String) : Option FitValue :=
  (r.fields.find? (fun f => f.name = field_name)).map (fun f => f.value)

/-- `GpsPoint` (`fit_parser.rs` lines 9-15). -/
structure GpsPoint where
  timestamp : Option String
  lat : ℚ
  lon : ℚ
  altitude : Option ℚ
  deriving DecidableEq, Repr

/-- `SensorPoint` (`fit_parser.rs` lines 17-26). -/
structure SensorPoint where
  timestamp : Option String
  heart_rate : Option Int
  power : Option Int
  cadence : Option Int
  speed : Option ℚ
  distance : Option ℚ
  altitude : Option ℚ
  deriving DecidableEq, Repr

/-- `ChartData` (`fit_parser.rs` lines 28-36). -/
structure ChartData where
  timestamps : List String
  heart_rate : List (Option Int)
  power : List (Option Int)
  cadence : List (Option Int)
  speed : List (Option ℚ)
  altitude : List (Option ℚ)
  deriving DecidableEq, Repr

/-- `ParsedFitData` (`fit_parser.rs` lines 38-61). -/
structure ParsedFitData where
  file_hash : String
  filename : String
  workout_type : Option String
  start_time : Option String
  end_time : Option String
  duration_seconds : Option Int
  distance_meters : Option ℚ
  total_calories : Option Int
  avg_heart_rate : Option Int
  max_heart_rate : Option Int
  avg_power_watts : Option Int
  max_power_watts : Option Int
  avg_cadence : Option Int
  max_cadence : Option Int
  avg_speed_mps : Option ℚ
  max_speed_mps : Option ℚ
  elevation_gain_meters : Option ℚ
  elevation_loss_meters : Option ℚ
  gps_data : List GpsPoint
  sensor_data : List SensorPoint
  chart_data : ChartData
  deriving DecidableEq, Repr

/-! ## Derived-metrics calculator (`calculate_elevation_changes`) -/

/-- The noise threshold (`fit_parser.rs` line 496). -/
def elevThreshold : ℚ := 2

/-- One step of the elevation loop (`fit_parser.rs` lines 498-505):
the accumulator is the `(gain, loss)` pair, the window is an adjacent
pair of altitudes. -/
def elevStep (acc : ℚ × ℚ) (w : ℚ × ℚ) : ℚ × ℚ :=
  let diff := w.2 - w.1
  if diff > elevThreshold then (acc.1 + diff, acc.2)
  else if diff < -elevThreshold then (acc.1, acc.2 + |diff|)
  else acc

/-- Rust `slice::windows(2)` as a list of adjacent pairs. -/
def windows2 : List ℚ → List (ℚ × ℚ)
  | a :: b :: rest => (a, b) :: windows2 (b :: rest)
  | _ => []

/-- `calculate_elevation_changes` (`fit_parser.rs` lines 489-508). -/
def calculate_elevation_changes (altitudes : List ℚ) : Option ℚ × Option ℚ :=
  if altitudes.length < 2 then (none, none)
  else
    let r := (windows2 altitudes).foldl elevStep (0, 0)
    (some r.1, some r.2)

/-! ## Chart builder (`build_chart_data`) -/

/-- The chart cap (`fit_parser.rs` line 512). -/
def max_points : Nat := 1000

/-- The stride chosen by `build_chart_data` (`fit_parser.rs`
lines 513-517) for a sensor series of length `n`. -/
def chartStep (n : Nat) : Nat :=
  if n > max_points then n / max_points else 1

/-- The samples kept by the `build_chart_data` loop (`fit_parser.rs`
lines 526-535): iterate with index, keep index multiples of the stride. -/
def chartKept (sensor_data : List SensorPoint) : List SensorPoint :=
  let step := chartStep sensor_data.length
  (sensor_data.enum.filter (fun p => p.1 % step = 0)).map Prod.snd

/-- `build_chart_data` (`fit_parser.rs` lines 510-545): each kept sample
pushes one entry onto each of the six parallel arrays; a missing
timestamp pushes the empty string (`unwrap_or_default`). -/
def build_chart_data (sensor_data : List SensorPoint) : ChartData :=
  let kept := chartKept sensor_data
  { timestamps := kept.map (fun p => p.timestamp.getD "")
  , heart_rate := kept.map (fun p => p.heart_rate)
  , power := kept.map (fun p => p.power)
  , cadence := kept.map (fun p => p.cadence)
  , speed := kept.map (fun p => p.speed)
  , altitude := kept.map (fun p => p.altitude) }

/-! ## The message loop of `parse_fit_file` (`fit_parser.rs` lines 184-442)

The body of the loop threads the mutable accumulator variables of the
source through the message stream; they are collected in `ParseState`.
Inside one message each assignment touches a distinct accumulator, so
the sequential mutations of one branch are written as one record update
with an expression per accumulator. -/

/-- The mutable accumulator variables of `parse_fit_file`
(`fit_parser.rs` lines 184-203). -/
structure ParseState where
  workout_type : Option String
  start_time : Option Int
  end_time : Option Int
  duration_seconds : Option Int
  distance_meters : Option ℚ
  total_calories : Option Int
  avg_heart_rate : Option Int
  max_heart_rate : Option Int
  avg_power : Option Int
  max_power : Option Int
  avg_cadence : Option Int
  max_cadence : Option Int
  avg_speed : Option ℚ
  max_speed : Option ℚ
  elevation_gain : Option ℚ
  elevation_loss : Option ℚ
  gps_data : List GpsPoint
  sensor_data : List SensorPoint
  altitudes : List ℚ
  deriving DecidableEq, Repr

/-- The initial state: every accumulator unset, every series empty. -/
def initState : ParseState :=
  { workout_type := none, start_time := none, end_time := none
  , duration_seconds := none, distance_meters := none, total_calories := none
  , avg_heart_rate := none, max_heart_rate := none
  , avg_power := none, max_power := none
  , avg_cadence := none, max_cadence := none
  , avg_speed := none, max_speed := none
  , elevation_gain := none, elevation_loss := none
  , gps_data := [], sensor_data := [], altitudes := [] }

/-- The sport value a `sport`-carrying field yields (`fit_parser.rs`
lines 213-225 and 239-247): strings are lower-cased, `uint8` codes go
through the fixed table, every other variant is ignored. -/
def sportValue (v : FitValue) : Option String :=
  match v with
  | .str s => some (toLowerStr s)
  | .uint8 n => some (sport_to_string n)
  | _ => none

/-- The `"sport"` branch (`fit_parser.rs` lines 209-227): the sport
field, when present with a usable variant, overwrites the workout type
unconditionally. -/
def processSport (st : ParseState) (r : FitRecord) : ParseState :=
  match (get_field_value r "sport").bind sportValue with
  | some w => { st with workout_type := some w }
  | none => st

/-- Set-only-on-success update used for timestamps and guarded floats:
the accumulator changes only when the field is present and coerces. -/
def updTimestamp (old : Option Int) (r : FitRecord) (nm : String) : Option Int :=
  match (get_field_value r nm).bind value_to_timestamp with
  | some t => some t
  | none => old

/-- Direct-assignment update used for the integer summary fields
(`total_calories`, heart rate, power, cadence): when the field is
present the accumulator is assigned the coercion result even when the
coercion fails (`fit_parser.rs` lines 294-321). -/
def updI64Direct (old : Option Int) (r : FitRecord) (nm : String) : Option Int :=
  match get_field_value r nm with
  | some v => value_to_i64 v
  | none => old

/-- Direct-assignment update used for the float summary fields
(`total_ascent`, `total_descent`; `fit_parser.rs` lines 344-350). -/
def updF64Direct (old : Option ℚ) (r : FitRecord) (nm : String) : Option ℚ :=
  match get_field_value r nm with
  | some v => value_to_f64 v
  | none => old

/-- Rust `f64 as i64`: truncate toward zero, saturating at the signed
64-bit bounds. -/
def rustF64AsI64 (q : ℚ) : Int :=
  let t : Int := if 0 ≤ q then ⌊q⌋ else ⌈q⌉
  max (-(2 ^ 63)) (min (2 ^ 63 - 1) t)

/-- The session duration update (`fit_parser.rs` lines 267-282):
`total_elapsed_time` when it coerces, else the previous value, else
`total_timer_time`. -/
def sessionDuration (old : Option Int) (r : FitRecord) : Option Int :=
  match (get_field_value r "total_elapsed_time").bind value_to_f64 with
  | some t => some (rustF64AsI64 t)
  | none =>
    match old with
    | some d => some d
    | none =>
      match (get_field_value r "total_timer_time").bind value_to_f64 with
      | some t => some (rustF64AsI64 t)
      | none => none

/-- The session distance update (`fit_parser.rs` lines 284-291):
set only when the field is present and coerces. -/
def sessionDistance (old : Option ℚ) (r : FitRecord) : Option ℚ :=
  match (get_field_value r "total_distance").bind value_to_f64 with
  | some d => some d
  | none => old

/-- The session speed update (`fit_parser.rs` lines 323-341) for one of
the avg/max pairs: the plain field, when present, is assigned directly
(possibly clearing the accumulator); the enhanced field is consulted
only when the accumulator is still unset afterwards. -/
def sessionSpeed (old : Option ℚ) (r : FitRecord) (plain enhanced : String) :
    Option ℚ :=
  let afterPlain :=
    match get_field_value r plain with
    | some v => value_to_f64 v
    | none => old
  match afterPlain with
  | some q => some q
  | none =>
    match get_field_value r enhanced with
    | some v => value_to_f64 v
    | none => none

/-- The session workout-type update (`fit_parser.rs` lines 236-249):
only when still unset. -/
def sessionWorkoutType (old : Option String) (r : FitRecord) : Option String :=
  match old with
  | some w => some w
  | none =>
    match (get_field_value r "sport").bind sportValue with
    | some w => some w
    | none => none

/-- The `"session"` branch (`fit_parser.rs` lines 228-351). -/
def processSession (st : ParseState) (r : FitRecord) : ParseState :=
  { st with
    workout_type := sessionWorkoutType st.workout_type r
  , start_time := updTimestamp st.start_time r "start_time"
  , end_time := updTimestamp st.end_time r "timestamp"
  , duration_seconds := sessionDuration st.duration_seconds r
  , distance_meters := sessionDistance st.distance_meters r
  , total_calories := updI64Direct st.total_calories r "total_calories"
  , avg_heart_rate := updI64Direct st.avg_heart_rate r "avg_heart_rate"
  , max_heart_rate := updI64Direct st.max_heart_rate r "max_heart_rate"
  , avg_power := updI64Direct st.avg_power r "avg_power"
  , max_power := updI64Direct st.max_power r "max_power"
  , avg_cadence := updI64Direct st.avg_cadence r "avg_cadence"
  , max_cadence := updI64Direct st.max_cadence r "max_cadence"
  , avg_speed := sessionSpeed st.avg_speed r "avg_speed" "enhanced_avg_speed"
  , max_speed := sessionSpeed st.max_speed r "max_speed" "enhanced_max_speed"
  , elevation_gain := updF64Direct st.elevation_gain r "total_ascent"
  , elevation_loss := updF64Direct st.elevation_loss r "total_descent" }

/-- Field lookup with a fallback name (`.or_else` on the lookup, before
coercion; `fit_parser.rs` lines 367-368 and 395-396). -/
def fieldOr (r : FitRecord) (nm fallback : String) : Option FitValue :=
  match get_field_value r nm with
  | some v => some v
  | none => get_field_value r fallback

/-- The timestamp of a `record` message (`fit_parser.rs` lines 354-356),
rendered to its textual form. -/
def recordTimestamp (r : FitRecord) : Option String :=
  ((get_field_value r "timestamp").bind value_to_timestamp).map to_rfc3339

/-- The decoded latitude of a `record` message (`fit_parser.rs`
lines 359-361): the raw value as `i64`, cast to `i32`, semicircles to
degrees. -/
def recordLat (r : FitRecord) : Option ℚ :=
  ((get_field_value r "position_lat").bind value_to_i64).map
    (fun v => semicircles_to_degrees (i64_as_i32 v))

/-- The decoded longitude of a `record` message (`fit_parser.rs`
lines 362-364). -/
def recordLon (r : FitRecord) : Option ℚ :=
  ((get_field_value r "position_long").bind value_to_i64).map
    (fun v => semicircles_to_degrees (i64_as_i32 v))

/-- The altitude of a `record` message (`fit_parser.rs` lines 366-369):
`altitude`, falling back to `enhanced_altitude`, then coerced. -/
def recordAltitude (r : FitRecord) : Option ℚ :=
  (fieldOr r "altitude" "enhanced_altitude").bind value_to_f64

/-- The GPS sample a `record` message contributes (`fit_parser.rs`
lines 371-380): present only when both coordinates decode and pass the
range check. -/
def recordGpsPoint (r : FitRecord) : Option GpsPoint :=
  match recordLat r, recordLon r with
  | some la, some lo =>
    if |la| ≤ 90 ∧ |lo| ≤ 180 then
      some { timestamp := recordTimestamp r, lat := la, lon := lo
           , altitude := recordAltitude r }
    else none
  | _, _ => none

/-- The sensor sample a `record` message always contributes
(`fit_parser.rs` lines 386-411). -/
def recordSensorPoint (r : FitRecord) : SensorPoint :=
  { timestamp := recordTimestamp r
  , heart_rate := (get_field_value r "heart_rate").bind value_to_i64
  , power := (get_field_value r "power").bind value_to_i64
  , cadence := (get_field_value r "cadence").bind value_to_i64
  , speed := (fieldOr r "speed" "enhanced_speed").bind value_to_f64
  , distance := (get_field_value r "distance").bind value_to_f64
  , altitude := recordAltitude r }

/-- The `"record"` branch (`fit_parser.rs` lines 352-412): appends the
optional GPS sample, exactly one sensor sample, and the optional raw
altitude; no summary accumulator is touched. -/
def processRecordMsg (st : ParseState) (r : FitRecord) : ParseState :=
  { st with
    gps_data := st.gps_data ++ (recordGpsPoint r).toList
  , sensor_data := st.sensor_data ++ [recordSensorPoint r]
  , altitudes := st.altitudes ++ (recordAltitude r).toList }

/-- The `"activity"` branch (`fit_parser.rs` lines 413-429): the `type`
field sets the workout type only when it is still unset. -/
def processActivity (st : ParseState) (r : FitRecord) : ParseState :=
  match st.workout_type with
  | some _ => st
  | none =>
    match (get_field_value r "type").bind sportValue with
    | some w => { st with workout_type := some w }
    | none => st

/-- The `"lap"` branch (`fit_parser.rs` lines 430-439): `start_time`
only when still unset. -/
def processLap (st : ParseState) (r : FitRecord) : ParseState :=
  match st.start_time with
  | some _ => st
  | none => { st with start_time := updTimestamp st.start_time r "start_time" }

/-- One iteration of the dispatcher loop (`fit_parser.rs`
lines 205-442): route by kind, unknown kinds are skipped. -/
def processRecord (st : ParseState) (r : FitRecord) : ParseState :=
  if r.kind = "sport" then processSport st r
  else if r.kind = "session" then processSession st r
  else if r.kind = "record" then processRecordMsg st r
  else if r.kind = "activity" then processActivity st r
  else if r.kind = "lap" then processLap st r
  else st

/-- The tail of `parse_fit_file` (`fit_parser.rs` lines 444-486):
fill still-unset elevation fields from the raw altitude series, build
the chart, assemble the output record. -/
def finalize (file_hash filename : String) (st : ParseState) : ParsedFitData :=
  let calcElev := calculate_elevation_changes st.altitudes
  { file_hash := file_hash
  , filename := filename
  , workout_type := st.workout_type
  , start_time := st.start_time.map to_rfc3339
  , end_time := st.end_time.map to_rfc3339
  , duration_seconds := st.duration_seconds
  , distance_meters := st.distance_meters
  , total_calories := st.total_calories
  , avg_heart_rate := st.avg_heart_rate
  , max_heart_rate := st.max_heart_rate
  , avg_power_watts := st.avg_power
  , max_power_watts := st.max_power
  , avg_cadence := st.avg_cadence
  , max_cadence := st.max_cadence
  , avg_speed_mps := st.avg_speed
  , max_speed_mps := st.max_speed
  , elevation_gain_meters :=
      match st.elevation_gain with
      | some g => some g
      | none => calcElev.1
  , elevation_loss_meters :=
      match st.elevation_loss with
      | some l => some l
      | none => calcElev.2
  , gps_data := st.gps_data
  , sensor_data := st.sensor_data
  , chart_data := build_chart_data st.sensor_data }

/-- The message loop over a whole stream, from the initial state. -/
def parseRecords (records : List FitRecord) : ParseState :=
  records.foldl processRecord initState

/-- `parse_fit_file` (`fit_parser.rs` lines 156-487).  The two external
collaborators are parameters: `readResult` models `fs::read` (the bytes
or an I/O error) and `decode` models `fitparser::from_bytes`;
`hashHex` models the SHA-256 hex digest of the raw bytes.  Every error
of the source is tagged exactly as the source tags it; nothing after a
successful decode can fail. -/
def parse_fit_file (readResult : Except String (List Nat))
    (decode : List Nat → Except String (List FitRecord))
    (hashHex : List Nat → String) (filename : String) :
    Except String ParsedFitData :=
  match readResult with
  | .error e => .error ("Failed to read file: " ++ e)
  | .ok file_data =>
    match decode file_data with
    | .error e => .error ("Failed to parse FIT file: " ++ e)
    | .ok records => .ok (finalize (hashHex file_data) filename (parseRecords records))

/-! ## Generic list lemmas for the chart builder -/

lemma enumFrom_filter_snd {α : Type} (P : Nat → Bool) :
    ∀ (k : Nat) (l : List α),
      ((List.enumFrom k l).filter (fun p => P p.1)).map Prod.snd
        = ((List.range l.length).filter (fun i => P (k + i))).filterMap l.get?
  | _, [] => by simp
  | k, a :: l => by
    have ih := enumFrom_filter_snd P (k + 1) l
    have hg : ((a :: l).get? ∘ Nat.succ) = l.get? := funext fun i => rfl
    have hp : ((fun i => P (k + i)) ∘ Nat.succ) = (fun i => P (k + 1 + i)) := by
      funext i
      have h1 : k + 1 + i = k + Nat.succ i := by omega
      simp [Function.comp, h1]
    rw [List.length_cons, List.range_succ_eq_map]
    simp only [List.enumFrom, List.filter_cons, Nat.add_zero, List.filter_map,
      List.filterMap_map, hg, hp]
    have hfm : List.filterMap ((a :: l).get? ∘ Nat.succ) = List.filterMap l.get? := by
      rw [hg]
    by_cases h : P k <;> simp [h, ih, hfm]

lemma enum_filter_snd {α : Type} (P : Nat → Bool) (l : List α) :
    (l.enum.filter (fun p => P p.1)).map Prod.snd
      = ((List.range l.length).filter P).filterMap l.get? := by
  have h := enumFrom_filter_snd P 0 l
  simpa using h

lemma filterMap_get?_length {α : Type} (l : List α) :
    ∀ xs : List Nat, (∀ i ∈ xs, i < l.length) →
      (xs.filterMap l.get?).length = xs.length
  | [], _ => rfl
  | i :: xs, h => by
    have hi : i < l.length := h i (List.mem_cons_self i xs)
    have hrest := filterMap_get?_length l xs fun j hj => h j (List.mem_cons_of_mem i hj)
    have hsome : l[i]? = some (l.get ⟨i, hi⟩) := by
      rw [List.getElem?_eq_getElem hi]
      rfl
    simp [List.filterMap_cons, List.get?_eq_getElem?, hsome, hrest]

lemma length_filter_range_mod (s : Nat) :
    ∀ n, ((List.range n).filter (fun i => decide (i % s = 0))).length
      = if n = 0 then 0 else (n - 1) / s + 1 := by
  intro n
  induction n with
  | zero => simp
  | succ n ih =>
    rw [List.range_succ, List.filter_append, List.length_append, ih]
    rcases Nat.eq_zero_or_pos n with h0 | hpos
    · subst h0; simp [Nat.zero_mod]
    · have hn : n ≠ 0 := Nat.pos_iff_ne_zero.mp hpos
      have hd : n / s = (n - 1) / s + if s ∣ n then 1 else 0 := by
        have h2 := Nat.succ_div (n - 1) s
        rw [Nat.sub_add_cancel hpos] at h2
        exact h2
      have hmod : decide (n % s = 0) = decide (s ∣ n) := by
        apply decide_eq_decide.mpr
        exact Nat.dvd_iff_mod_eq_zero.symm
      simp only [if_neg hn, if_neg (Nat.succ_ne_zero n), Nat.succ_sub_one, hd]
      by_cases hdvd : s ∣ n <;> simp [hmod, hdvd]

/-! ## Chart builder facts -/

/-- `chartKept` as an index-level selection: the samples at the indices
of the original series that the stride divides, in original order. -/
lemma chartKept_eq_filterMap (sd : List SensorPoint) :
    chartKept sd = ((List.range sd.length).filter
        (fun i => decide (i % chartStep sd.length = 0))).filterMap sd.get? := by
  simp only [chartKept]
  exact enum_filter_snd (fun i => decide (i % chartStep sd.length = 0)) sd

/-- Closed form for the number of kept chart samples. -/
lemma chartKept_length (sd : List SensorPoint) :
    (chartKept sd).length
      = if sd.length = 0 then 0 else (sd.length - 1) / chartStep sd.length + 1 := by
  rw [chartKept_eq_filterMap, filterMap_get?_length, length_filter_range_mod]
  intro i hi
  exact List.mem_range.mp (List.mem_filter.mp hi).1

/-- The kept-sample count never exceeds 1999 (and 1999 is attained at
1999 input samples, where the stride is still 1). -/
lemma chartKept_count_le (n : Nat) :
    (if n = 0 then 0 else (n - 1) / chartStep n + 1) ≤ 1999 := by
  by_cases h0 : n = 0
  · simp [h0]
  · rw [if_neg h0]
    by_cases h : n > 1000
    · have hstep : chartStep n = n / 1000 := by
        simp [chartStep, max_points, h]
      rw [hstep]
      have hk1 : 1 ≤ n / 1000 := by omega
      have hub : n - 1 ≤ 1998 * (n / 1000) := by omega
      have hdiv : (n - 1) / (n / 1000) ≤ 1998 := by
        have h3 : (n - 1) / (n / 1000) ≤ 1998 * (n / 1000) / (n / 1000) :=
          Nat.div_le_div_right hub
        rwa [Nat.mul_div_cancel _ (by omega : 0 < n / 1000)] at h3
      omega
    · have hstep : chartStep n = 1 := by
        simp [chartStep, max_points, h]
      rw [hstep, Nat.div_one]
      omega

/-- Each chart array is a per-field projection of the kept samples, so
all six lengths are the kept-sample count. -/
lemma build_chart_lengths (sd : List SensorPoint) :
    (build_chart_data sd).timestamps.length = (chartKept sd).length ∧
    (build_chart_data sd).heart_rate.length = (chartKept sd).length ∧
    (build_chart_data sd).power.length = (chartKept sd).length ∧
    (build_chart_data sd).cadence.length = (chartKept sd).length ∧
    (build_chart_data sd).speed.length = (chartKept sd).length ∧
    (build_chart_data sd).altitude.length = (chartKept sd).length := by
  simp [build_chart_data]

/-- A sensor sample with every field absent, used as a concrete input. -/
def blankSensorPoint : SensorPoint :=
  { timestamp := none, heart_rate := none, power := none, cadence := none
  , speed := none, distance := none, altitude := none }

/-- The chart the full (undownsampled) sensor series would produce:
every sample contributes one slot to each of the six arrays.  This is
the spec-side description used by claim C2. -/
def fullChartOf (sd : List SensorPoint) : ChartData :=
  { timestamps := sd.map (fun p => p.timestamp.getD "")
  , heart_rate := sd.map (fun p => p.heart_rate)
  , power := sd.map (fun p => p.power)
  , cadence := sd.map (fun p => p.cadence)
  , speed := sd.map (fun p => p.speed)
  , altitude := sd.map (fun p => p.altitude) }

/-- Claim C1, counterexample: at 1001 sensor samples the stride is
`1001 / 1000 = 1`, so all 1001 samples are kept and the chart length is
1001, refuting the claimed bound of 1000. -/
theorem c1_counterexample_1001_samples :
    ¬ ((build_chart_data (List.replicate 1001 blankSensorPoint)).timestamps.length
        ≤ 1000) := by
  have hlen : (List.replicate 1001 blankSensorPoint).length = 1001 :=
    List.length_replicate 1001 blankSensorPoint
  have hk := chartKept_length (List.replicate 1001 blankSensorPoint)
  have hts := (build_chart_lengths (List.replicate 1001 blankSensorPoint)).1
  have hstep : chartStep 1001 = 1 := by norm_num [chartStep, max_points]
  rw [hlen, hstep] at hk
  norm_num at hk
  omega

/-- Claim C1 (amended): for every input sensor-sample sequence, the six
chart-series arrays have identical length, and that length is at most
1999 (not 1000: the stride `N / 1000` keeps up to `1999` samples). -/
theorem c1_amended_chart_lengths_equal_le_1999 (sd : List SensorPoint) :
    ((build_chart_data sd).timestamps.length = (build_chart_data sd).heart_rate.length ∧
     (build_chart_data sd).timestamps.length = (build_chart_data sd).power.length ∧
     (build_chart_data sd).timestamps.length = (build_chart_data sd).cadence.length ∧
     (build_chart_data sd).timestamps.length = (build_chart_data sd).speed.length ∧
     (build_chart_data sd).timestamps.length = (build_chart_data sd).altitude.length) ∧
    (build_chart_data sd).timestamps.length ≤ 1999 := by
  obtain ⟨h1, h2, h3, h4, h5, h6⟩ := build_chart_lengths sd
  constructor
  · exact ⟨h1.trans h2.symm, h1.trans h3.symm, h1.trans h4.symm,
      h1.trans h5.symm, h1.trans h6.symm⟩
  · rw [h1, chartKept_length]
    exact chartKept_count_le sd.length

/-- Claim C2: for `N ≤ 1000` sensor samples the chart is the full
series in original order; for `N > 1000` the stride is `⌊N / 1000⌋` and
the kept samples are exactly those whose zero-based index the stride
divides, in original order. -/
theorem c2_downsample_correct (sd : List SensorPoint) :
    (sd.length ≤ 1000 → build_chart_data sd = fullChartOf sd) ∧
    (1000 < sd.length →
      chartStep sd.length = sd.length / 1000 ∧
      chartKept sd = ((List.range sd.length).filter
          (fun i => decide (sd.length / 1000 ∣ i))).filterMap sd.get?) := by
  constructor
  · intro h
    have hstep : chartStep sd.length = 1 := by
      simp only [chartStep, max_points]
      rw [if_neg (by omega)]
    have hkept : chartKept sd = sd := by
      simp only [chartKept, hstep]
      have hall : sd.enum.filter (fun p => decide (p.1 % 1 = 0)) = sd.enum := by
        apply List.filter_eq_self.mpr
        intro p _
        simp [Nat.mod_one]
      rw [hall, List.enum_map_snd]
    simp [build_chart_data, fullChartOf, hkept]
  · intro h
    have hstep : chartStep sd.length = sd.length / 1000 := by
      simp only [chartStep, max_points]
      rw [if_pos (by omega)]
    refine ⟨hstep, ?_⟩
    rw [chartKept_eq_filterMap, hstep]
    congr 1
    apply List.filter_congr
    intro i _
    apply decide_eq_decide.mpr
    exact Nat.dvd_iff_mod_eq_zero.symm

/-- Claim C2, witness: a concrete two-sample series is kept whole. -/
theorem c2_downsample_correct_witness :
    ([blankSensorPoint, blankSensorPoint] : List SensorPoint).length ≤ 1000 ∧
    build_chart_data [blankSensorPoint, blankSensorPoint]
      = fullChartOf [blankSensorPoint, blankSensorPoint] :=
  ⟨by norm_num,
   (c2_downsample_correct [blankSensorPoint, blankSensorPoint]).1 (by norm_num)⟩

/-! ## Elevation calculator facts -/

/-- The gain contribution of one altitude window under the spec's rule:
a difference strictly greater than 2.0 counts, anything else does not. -/
def gainContrib (w : ℚ × ℚ) : ℚ := if w.2 - w.1 > 2 then w.2 - w.1 else 0

/-- The loss contribution of one altitude window under the spec's rule:
a difference strictly below -2.0 counts with its absolute value. -/
def lossContrib (w : ℚ × ℚ) : ℚ := if w.2 - w.1 < -2 then |w.2 - w.1| else 0

/-- The elevation loop computes, in each accumulator component, the sum
of the per-window contributions. -/
lemma elev_foldl_eq_sums (l : List (ℚ × ℚ)) : ∀ g0 l0 : ℚ,
    l.foldl elevStep (g0, l0)
      = (g0 + (l.map gainContrib).sum, l0 + (l.map lossContrib).sum) := by
  induction l with
  | nil => intro g0 l0; simp
  | cons w l ih =>
    intro g0 l0
    rw [List.foldl_cons]
    by_cases hg : w.2 - w.1 > elevThreshold
    · have hstep : elevStep (g0, l0) w = (g0 + (w.2 - w.1), l0) := by
        simp [elevStep, hg]
      have hc : gainContrib w = w.2 - w.1 ∧ lossContrib w = 0 := by
        constructor
        · simp [gainContrib, show w.2 - w.1 > 2 from hg]
        · have : ¬ (w.2 - w.1 < -2) := by
            have h2 : (2 : ℚ) ≤ w.2 - w.1 := le_of_lt hg
            intro hcon; linarith
          simp [lossContrib, this]
      rw [hstep, ih]
      simp [hc.1, hc.2]
      ring
    · by_cases hl : w.2 - w.1 < -elevThreshold
      · have hstep : elevStep (g0, l0) w = (g0, l0 + |w.2 - w.1|) := by
          simp [elevStep, hg, hl]
        have hc : gainContrib w = 0 ∧ lossContrib w = |w.2 - w.1| := by
          constructor
          · simp [gainContrib, show ¬ (w.2 - w.1 > 2) from hg]
          · simp [lossContrib, show w.2 - w.1 < -2 from hl]
        rw [hstep, ih]
        simp [hc.1, hc.2]
        ring
      · have hstep : elevStep (g0, l0) w = (g0, l0) := by
          simp [elevStep, hg, hl]
        have hc : gainContrib w = 0 ∧ lossContrib w = 0 := by
          constructor
          · simp [gainContrib, show ¬ (w.2 - w.1 > 2) from hg]
          · simp [lossContrib, show ¬ (w.2 - w.1 < -2) from hl]
        rw [hstep, ih]
        simp [hc.1, hc.2]

/-- Claim C3: with at least two altitude samples the calculator returns
the sum of the strictly-above-threshold positive differences as gain
and the sum of absolute values of the strictly-below-negated-threshold
differences as loss; a window within the ±2.0 band changes neither
accumulator; with fewer than two samples both outputs are absent. -/
theorem c3_elevation_changes (alts : List ℚ) :
    (alts.length < 2 → calculate_elevation_changes alts = (none, none)) ∧
    (2 ≤ alts.length →
      calculate_elevation_changes alts
        = (some ((windows2 alts).map gainContrib).sum,
           some ((windows2 alts).map lossContrib).sum)) ∧
    (∀ acc w : ℚ × ℚ, |w.2 - w.1| ≤ 2 → elevStep acc w = acc) := by
  refine ⟨?_, ?_, ?_⟩
  · intro h
    simp [calculate_elevation_changes, h]
  · intro h
    have hnot : ¬ (alts.length < 2) := by omega
    rw [calculate_elevation_changes, if_neg hnot, elev_foldl_eq_sums]
    simp
  · intro acc w h
    obtain ⟨h1, h2⟩ := abs_le.mp h
    have hgt : ¬ (w.2 - w.1 > elevThreshold) := by
      rw [elevThreshold]; linarith
    have hlt : ¬ (w.2 - w.1 < -elevThreshold) := by
      rw [elevThreshold]; linarith
    simp [elevStep, hgt, hlt]

/-- Claim C3, witness: one sample yields `(none, none)`; the sequence
`[0, 5, 5, 1, 3]` (differences 5, 0, -4, 2) yields gain 5 and loss 4 —
the exact +2 difference at the end is noise. -/
theorem c3_elevation_changes_witness :
    (([7] : List ℚ).length < 2 ∧ calculate_elevation_changes [7] = (none, none)) ∧
    (2 ≤ ([0, 5, 5, 1, 3] : List ℚ).length ∧
      calculate_elevation_changes [0, 5, 5, 1, 3] = (some 5, some 4)) := by
  constructor
  · exact ⟨by norm_num, (c3_elevation_changes [7]).1 (by norm_num)⟩
  · refine ⟨by norm_num, ?_⟩
    have h := (c3_elevation_changes [0, 5, 5, 1, 3]).2.1 (by norm_num)
    have hg : ((windows2 [0, 5, 5, 1, 3]).map gainContrib).sum = (5 : ℚ) := by
      norm_num [windows2, gainContrib]
    have hl : ((windows2 [0, 5, 5, 1, 3]).map lossContrib).sum = (4 : ℚ) := by
      norm_num [windows2, lossContrib]
    rw [h, hg, hl]

/-! ## GPS track facts -/

lemma processSport_gps (st : ParseState) (r : FitRecord) :
    (processSport st r).gps_data = st.gps_data := by
  unfold processSport
  cases h : (get_field_value r "sport").bind sportValue <;> simp

lemma processSession_gps (st : ParseState) (r : FitRecord) :
    (processSession st r).gps_data = st.gps_data := rfl

lemma processActivity_gps (st : ParseState) (r : FitRecord) :
    (processActivity st r).gps_data = st.gps_data := by
  unfold processActivity
  cases st.workout_type with
  | some w => rfl
  | none => cases h : (get_field_value r "type").bind sportValue <;> simp

lemma processLap_gps (st : ParseState) (r : FitRecord) :
    (processLap st r).gps_data = st.gps_data := by
  unfold processLap
  cases st.start_time <;> rfl

/-- A GPS sample is emitted by a `record` message only with in-range
coordinates. -/
lemma recordGpsPoint_ranges (r : FitRecord) (p : GpsPoint)
    (h : recordGpsPoint r = some p) : |p.lat| ≤ 90 ∧ |p.lon| ≤ 180 := by
  unfold recordGpsPoint at h
  cases hla : recordLat r with
  | none => rw [hla] at h; exact absurd h (by simp)
  | some la =>
    cases hlo : recordLon r with
    | none => rw [hla, hlo] at h; exact absurd h (by simp)
    | some lo =>
      rw [hla, hlo] at h
      dsimp only at h
      by_cases hr : |la| ≤ 90 ∧ |lo| ≤ 180
      · rw [if_pos hr] at h
        cases h
        exact hr
      · rw [if_neg hr] at h
        exact absurd h (by simp)

/-- One dispatcher step preserves the GPS range invariant. -/
lemma gps_inv_step (st : ParseState) (r : FitRecord)
    (h : ∀ g ∈ st.gps_data, |g.lat| ≤ 90 ∧ |g.lon| ≤ 180) :
    ∀ g ∈ (processRecord st r).gps_data, |g.lat| ≤ 90 ∧ |g.lon| ≤ 180 := by
  unfold processRecord
  split_ifs with h1 h2 h3 h4 h5
  · rw [processSport_gps]; exact h
  · rw [processSession_gps]; exact h
  · intro g hg
    rw [show (processRecordMsg st r).gps_data
        = st.gps_data ++ (recordGpsPoint r).toList from rfl] at hg
    rcases List.mem_append.mp hg with hmem | hmem
    · exact h g hmem
    · cases hp : recordGpsPoint r with
      | none => rw [hp] at hmem; exact absurd hmem (by simp)
      | some p =>
        rw [hp] at hmem
        have : g = p := by simpa using hmem
        subst this
        exact recordGpsPoint_ranges r g hp
  · rw [processActivity_gps]; exact h
  · rw [processLap_gps]; exact h
  · exact h

/-- The whole message loop preserves the GPS range invariant. -/
lemma gps_inv_fold : ∀ (records : List FitRecord) (st : ParseState),
    (∀ g ∈ st.gps_data, |g.lat| ≤ 90 ∧ |g.lon| ≤ 180) →
    ∀ g ∈ (records.foldl processRecord st).gps_data, |g.lat| ≤ 90 ∧ |g.lon| ≤ 180
  | [], _, h => h
  | r :: records, st, h => gps_inv_fold records _ (gps_inv_step st r h)

/-- Claim C4: every GPS sample in the output track is in range; a
`record` message yields a GPS sample only when both coordinates decode,
and an out-of-range decoded pair is dropped. -/
theorem c4_gps_range_filter :
    (∀ records : List FitRecord, ∀ g ∈ (parseRecords records).gps_data,
      |g.lat| ≤ 90 ∧ |g.lon| ≤ 180) ∧
    (∀ r : FitRecord, recordLat r = none ∨ recordLon r = none →
      recordGpsPoint r = none) ∧
    (∀ (r : FitRecord) (la lo : ℚ), recordLat r = some la → recordLon r = some lo →
      ¬ (|la| ≤ 90 ∧ |lo| ≤ 180) → recordGpsPoint r = none) := by
  refine ⟨?_, ?_, ?_⟩
  · intro records g hg
    exact gps_inv_fold records initState (by simp [initState]) g hg
  · intro r h
    cases hla : recordLat r with
    | none => simp [recordGpsPoint, hla]
    | some la =>
      cases hlo : recordLon r with
      | none => simp [recordGpsPoint, hla, hlo]
      | some lo =>
        rcases h with h | h
        · rw [hla] at h; exact absurd h (by simp)
        · rw [hlo] at h; exact absurd h (by simp)
  · intro r la lo hla hlo hnot
    simp [recordGpsPoint, hla, hlo, hnot]

/-- Claim C4, witness: a concrete `record` message at raw coordinates
(0, 0) emits the origin sample, which the theorem reports in range. -/
theorem c4_gps_range_filter_witness :
    ((⟨none, 0, 0, none⟩ : GpsPoint) ∈ (parseRecords [⟨"record",
        [⟨"position_lat", .sint32 0⟩, ⟨"position_long", .sint32 0⟩]⟩]).gps_data) ∧
    |(⟨none, 0, 0, none⟩ : GpsPoint).lat| ≤ 90 ∧
    |(⟨none, 0, 0, none⟩ : GpsPoint).lon| ≤ 180 := by
  have hmem : (⟨none, 0, 0, none⟩ : GpsPoint) ∈ (parseRecords [⟨"record",
      [⟨"position_lat", .sint32 0⟩, ⟨"position_long", .sint32 0⟩]⟩]).gps_data := by
    norm_num +decide [parseRecords, processRecord, processRecordMsg,
      recordGpsPoint, recordLat, recordLon, recordTimestamp, recordAltitude,
      fieldOr, get_field_value, value_to_i64, i64_as_i32,
      semicircles_to_degrees, initState, List.find?]
  exact ⟨hmem, c4_gps_range_filter.1 _ _ hmem⟩

/-! ## Workout-type precedence facts -/

/-- Claim C5, counterexample: after a `sport` message has set the
workout type to "running", a second `sport` message changes it to
"cycling" — the first successful write does not win. -/
theorem c5_counterexample_second_sport_overwrites :
    (processRecord initState ⟨"sport", [⟨"sport", .str "running"⟩]⟩).workout_type
      = some "running" ∧
    (processRecord (processRecord initState ⟨"sport", [⟨"sport", .str "running"⟩]⟩)
        ⟨"sport", [⟨"sport", .str "cycling"⟩]⟩).workout_type = some "cycling" ∧
    (some "cycling" : Option String) ≠ some "running" := by
  refine ⟨?_, ?_, by decide⟩ <;>
    norm_num +decide [processRecord, processSport, get_field_value, sportValue,
      List.find?]

/-- Claim C5 (amended): a `sport` message's decodable `sport` field
always overwrites the workout type (so among `sport` messages the last
wins); a `session` message's `sport` field and an `activity` message's
`type` field write it only while it is still unset; consequently a set
workout type is never changed by any later non-`sport` message, but is
overwritten by a later `sport` message. -/
theorem c5_amended_sport_precedence (st : ParseState) (r : FitRecord) :
    (r.kind = "sport" → ∀ w, (get_field_value r "sport").bind sportValue = some w →
      (processRecord st r).workout_type = some w) ∧
    (r.kind = "session" → st.workout_type = none →
      ∀ w, (get_field_value r "sport").bind sportValue = some w →
      (processRecord st r).workout_type = some w) ∧
    (r.kind = "activity" → st.workout_type = none →
      ∀ w, (get_field_value r "type").bind sportValue = some w →
      (processRecord st r).workout_type = some w) ∧
    (r.kind ≠ "sport" → st.workout_type.isSome →
      (processRecord st r).workout_type = st.workout_type) := by
  refine ⟨?_, ?_, ?_, ?_⟩
  · intro hk w hw
    unfold processRecord
    rw [if_pos hk]
    unfold processSport
    rw [hw]
  · intro hk hnone w hw
    unfold processRecord
    rw [if_neg (by rw [hk]; decide), if_pos hk]
    unfold processSession sessionWorkoutType
    rw [hnone, hw]
  · intro hk hnone w hw
    unfold processRecord
    rw [if_neg (by rw [hk]; decide), if_neg (by rw [hk]; decide),
      if_neg (by rw [hk]; decide), if_pos hk]
    unfold processActivity
    rw [hnone, hw]
  · intro hk hsome
    obtain ⟨w, hw⟩ := Option.isSome_iff_exists.mp hsome
    unfold processRecord
    rw [if_neg hk]
    split_ifs with h2 h3 h4 h5
    · simp [processSession, sessionWorkoutType, hw]
    · rfl
    · simp [processActivity, hw]
    · unfold processLap
      cases st.start_time <;> rfl
    · rfl

/-- Claim C5, witness: with the type already "running", a `sport`
message overwrites it to "cycling" while a `session` message leaves it
alone. -/
theorem c5_amended_sport_precedence_witness :
    ((⟨"sport", [⟨"sport", .str "cycling"⟩]⟩ : FitRecord).kind = "sport" ∧
      (processRecord { initState with workout_type := some "running" }
          ⟨"sport", [⟨"sport", .str "cycling"⟩]⟩).workout_type = some "cycling") ∧
    ((⟨"session", [⟨"sport", .str "cycling"⟩]⟩ : FitRecord).kind ≠ "sport" ∧
      (processRecord { initState with workout_type := some "running" }
          ⟨"session", [⟨"sport", .str "cycling"⟩]⟩).workout_type
        = ({ initState with workout_type := some "running" } : ParseState).workout_type) := by
  constructor
  · refine ⟨rfl, ?_⟩
    exact (c5_amended_sport_precedence _ _).1 rfl "cycling"
      (by norm_num +decide [get_field_value, sportValue, List.find?])
  · refine ⟨by decide, ?_⟩
    exact (c5_amended_sport_precedence _ _).2.2.2 (by decide) rfl

/-! ## Session speed precedence facts -/

lemma sessionSpeed_plain_coercible (old : Option ℚ) (r : FitRecord)
    (plain enhanced : String) (v : FitValue) (q : ℚ)
    (h1 : get_field_value r plain = some v) (h2 : value_to_f64 v = some q) :
    sessionSpeed old r plain enhanced = some q := by
  unfold sessionSpeed
  rw [h1]
  dsimp only
  rw [h2]

lemma sessionSpeed_plain_uncoercible (old : Option ℚ) (r : FitRecord)
    (plain enhanced : String) (v w : FitValue)
    (h1 : get_field_value r plain = some v) (h2 : value_to_f64 v = none)
    (h3 : get_field_value r enhanced = some w) :
    sessionSpeed old r plain enhanced = value_to_f64 w := by
  unfold sessionSpeed
  rw [h1]
  dsimp only
  rw [h2]
  dsimp only
  rw [h3]

lemma sessionSpeed_plain_absent (r : FitRecord)
    (plain enhanced : String) (w : FitValue)
    (h1 : get_field_value r plain = none)
    (h3 : get_field_value r enhanced = some w) :
    sessionSpeed none r plain enhanced = value_to_f64 w := by
  unfold sessionSpeed
  rw [h1]
  dsimp only
  rw [h3]

/-- Routing a `session` message reaches `processSession`. -/
lemma processRecord_session (st : ParseState) (r : FitRecord)
    (hk : r.kind = "session") : processRecord st r = processSession st r := by
  unfold processRecord
  rw [if_neg (by rw [hk]; decide), if_pos hk]

/-- Claim C6, counterexample: a session message carrying both
`avg_speed` (present, but with an uncoercible string value) and
`enhanced_avg_speed` ends with the enhanced value — the enhanced field
is used although the primary field was not absent. -/
theorem c6_counterexample_enhanced_wins_over_present_plain :
    get_field_value ⟨"session", [⟨"avg_speed", .str "x"⟩,
        ⟨"enhanced_avg_speed", .float64 5⟩]⟩ "avg_speed" = some (.str "x") ∧
    value_to_f64 (.str "x") = none ∧
    (processRecord initState ⟨"session", [⟨"avg_speed", .str "x"⟩,
        ⟨"enhanced_avg_speed", .float64 5⟩]⟩).avg_speed = some 5 := by
  refine ⟨by norm_num +decide [get_field_value, List.find?], rfl, ?_⟩
  rw [processRecord_session _ _ rfl]
  have h := sessionSpeed_plain_uncoercible none ⟨"session", [⟨"avg_speed", .str "x"⟩,
      ⟨"enhanced_avg_speed", .float64 5⟩]⟩ "avg_speed" "enhanced_avg_speed"
    (.str "x") (.float64 5) (by norm_num +decide [get_field_value, List.find?]) rfl
    (by norm_num +decide [get_field_value, List.find?])
  exact h

/-- Claim C6 (amended): in a session message, a coercible plain
`avg_speed`/`max_speed` value always wins; the enhanced field is used
only if the plain field was absent (with the accumulator still unset)
or present with a value that cannot be coerced to a number. -/
theorem c6_amended_speed_precedence (st : ParseState) (r : FitRecord)
    (hk : r.kind = "session") :
    (∀ v q, get_field_value r "avg_speed" = some v → value_to_f64 v = some q →
      (processRecord st r).avg_speed = some q) ∧
    (∀ v w, get_field_value r "avg_speed" = some v → value_to_f64 v = none →
      get_field_value r "enhanced_avg_speed" = some w →
      (processRecord st r).avg_speed = value_to_f64 w) ∧
    (get_field_value r "avg_speed" = none → st.avg_speed = none →
      ∀ w, get_field_value r "enhanced_avg_speed" = some w →
      (processRecord st r).avg_speed = value_to_f64 w) ∧
    (∀ v q, get_field_value r "max_speed" = some v → value_to_f64 v = some q →
      (processRecord st r).max_speed = some q) ∧
    (∀ v w, get_field_value r "max_speed" = some v → value_to_f64 v = none →
      get_field_value r "enhanced_max_speed" = some w →
      (processRecord st r).max_speed = value_to_f64 w) ∧
    (get_field_value r "max_speed" = none → st.max_speed = none →
      ∀ w, get_field_value r "enhanced_max_speed" = some w →
      (processRecord st r).max_speed = value_to_f64 w) := by
  rw [processRecord_session st r hk]
  refine ⟨?_, ?_, ?_, ?_, ?_, ?_⟩
  · intro v q h1 h2
    exact sessionSpeed_plain_coercible st.avg_speed r _ _ v q h1 h2
  · intro v w h1 h2 h3
    exact sessionSpeed_plain_uncoercible st.avg_speed r _ _ v w h1 h2 h3
  · intro h1 hold w h3
    show sessionSpeed st.avg_speed r _ _ = _
    rw [hold]
    exact sessionSpeed_plain_absent r _ _ w h1 h3
  · intro v q h1 h2
    exact sessionSpeed_plain_coercible st.max_speed r _ _ v q h1 h2
  · intro v w h1 h2 h3
    exact sessionSpeed_plain_uncoercible st.max_speed r _ _ v w h1 h2 h3
  · intro h1 hold w h3
    show sessionSpeed st.max_speed r _ _ = _
    rw [hold]
    exact sessionSpeed_plain_absent r _ _ w h1 h3

/-- Claim C6, witness: with both plain (3 m/s) and enhanced (9 m/s)
average speed present and coercible, the plain value wins. -/
theorem c6_amended_speed_precedence_witness :
    (⟨"session", [⟨"avg_speed", .float64 3⟩,
        ⟨"enhanced_avg_speed", .float64 9⟩]⟩ : FitRecord).kind = "session" ∧
    (processRecord initState ⟨"session", [⟨"avg_speed", .float64 3⟩,
        ⟨"enhanced_avg_speed", .float64 9⟩]⟩).avg_speed = some 3 :=
  ⟨rfl, (c6_amended_speed_precedence initState _ rfl).1 (.float64 3) 3
    (by norm_num +decide [get_field_value, List.find?]) rfl⟩

/-! ## Error-surface facts -/

/-- Claim C7: the parse fails only on read failure or decode failure,
with the source's error tags; any successfully decoded message stream —
whatever its content — produces a success, and the empty stream yields
the all-absent, all-empty workout. -/
theorem c7_error_surface (e : String) (bytes : List Nat)
    (decode : List Nat → Except String (List FitRecord))
    (hashHex : List Nat → String) (filename : String) :
    (parse_fit_file (.error e) decode hashHex filename
      = .error ("Failed to read file: " ++ e)) ∧
    (decode bytes = .error e →
      parse_fit_file (.ok bytes) decode hashHex filename
        = .error ("Failed to parse FIT file: " ++ e)) ∧
    (∀ records, decode bytes = .ok records →
      parse_fit_file (.ok bytes) decode hashHex filename
        = .ok (finalize (hashHex bytes) filename (parseRecords records))) ∧
    (decode bytes = .ok [] →
      parse_fit_file (.ok bytes) decode hashHex filename
        = .ok { file_hash := hashHex bytes, filename := filename
              , workout_type := none, start_time := none, end_time := none
              , duration_seconds := none, distance_meters := none
              , total_calories := none, avg_heart_rate := none
              , max_heart_rate := none, avg_power_watts := none
              , max_power_watts := none, avg_cadence := none
              , max_cadence := none, avg_speed_mps := none
              , max_speed_mps := none, elevation_gain_meters := none
              , elevation_loss_meters := none, gps_data := []
              , sensor_data := []
              , chart_data := ⟨[], [], [], [], [], []⟩ }) := by
  refine ⟨rfl, ?_, ?_, ?_⟩
  · intro h
    simp [parse_fit_file, h]
  · intro records h
    simp [parse_fit_file, h]
  · intro h
    simp only [parse_fit_file, h]
    norm_num [finalize, parseRecords, initState, calculate_elevation_changes,
      build_chart_data, chartKept]

/-- Claim C7, witness: a concrete read error, a concrete decode error
and the concrete empty stream. -/
theorem c7_error_surface_witness :
    (parse_fit_file (.error "io") (fun _ => .ok []) (fun _ => "h") "f"
      = .error ("Failed to read file: " ++ "io")) ∧
    ((fun (_ : List Nat) => (.error "bad" : Except String (List FitRecord))) []
        = .error "bad" ∧
      parse_fit_file (.ok []) (fun _ => .error "bad") (fun _ => "h") "f"
        = .error ("Failed to parse FIT file: " ++ "bad")) ∧
    ((fun (_ : List Nat) => (.ok [] : Except String (List FitRecord))) []
        = .ok [] ∧
      parse_fit_file (.ok []) (fun _ => .ok []) (fun _ => "h") "f"
        = .ok { file_hash := "h", filename := "f"
              , workout_type := none, start_time := none, end_time := none
              , duration_seconds := none, distance_meters := none
              , total_calories := none, avg_heart_rate := none
              , max_heart_rate := none, avg_power_watts := none
              , max_power_watts := none, avg_cadence := none
              , max_cadence := none, avg_speed_mps := none
              , max_speed_mps := none, elevation_gain_meters := none
              , elevation_loss_meters := none, gps_data := []
              , sensor_data := []
              , chart_data := ⟨[], [], [], [], [], []⟩ }) :=
  ⟨(c7_error_surface "io" [] (fun _ => .ok []) (fun _ => "h") "f").1,
   ⟨rfl, (c7_error_surface "bad" [] (fun _ => .error "bad") (fun _ => "h") "f").2.1 rfl⟩,
   ⟨rfl, (c7_error_surface "x" [] (fun _ => .ok []) (fun _ => "h") "f").2.2.2 rfl⟩⟩

/-! ## Record-branch frame facts -/

/-- Routing a `record` message reaches `processRecordMsg`. -/
lemma processRecord_record (st : ParseState) (r : FitRecord)
    (hk : r.kind = "record") : processRecord st r = processRecordMsg st r := by
  unfold processRecord
  rw [if_neg (by rw [hk]; decide), if_neg (by rw [hk]; decide), if_pos hk]

/-- Claim C8: a `record` message changes no summary accumulator; it
appends exactly one sensor sample, at most one GPS sample, and exactly
one raw altitude entry when the altitude decodes (none otherwise). -/
theorem c8_record_frame_effect (st : ParseState) (r : FitRecord)
    (hk : r.kind = "record") :
    ((processRecord st r).workout_type = st.workout_type ∧
     (processRecord st r).start_time = st.start_time ∧
     (processRecord st r).end_time = st.end_time ∧
     (processRecord st r).duration_seconds = st.duration_seconds ∧
     (processRecord st r).distance_meters = st.distance_meters ∧
     (processRecord st r).total_calories = st.total_calories ∧
     (processRecord st r).avg_heart_rate = st.avg_heart_rate ∧
     (processRecord st r).max_heart_rate = st.max_heart_rate ∧
     (processRecord st r).avg_power = st.avg_power ∧
     (processRecord st r).max_power = st.max_power ∧
     (processRecord st r).avg_cadence = st.avg_cadence ∧
     (processRecord st r).max_cadence = st.max_cadence ∧
     (processRecord st r).avg_speed = st.avg_speed ∧
     (processRecord st r).max_speed = st.max_speed ∧
     (processRecord st r).elevation_gain = st.elevation_gain ∧
     (processRecord st r).elevation_loss = st.elevation_loss) ∧
    (processRecord st r).sensor_data = st.sensor_data ++ [recordSensorPoint r] ∧
    ((processRecord st r).gps_data = st.gps_data ++ (recordGpsPoint r).toList ∧
      (recordGpsPoint r).toList.length ≤ 1) ∧
    ((∀ q, recordAltitude r = some q →
        (processRecord st r).altitudes = st.altitudes ++ [q]) ∧
     (recordAltitude r = none → (processRecord st r).altitudes = st.altitudes)) := by
  rw [processRecord_record st r hk]
  refine ⟨⟨rfl, rfl, rfl, rfl, rfl, rfl, rfl, rfl, rfl, rfl, rfl, rfl, rfl, rfl,
    rfl, rfl⟩, rfl, ⟨rfl, ?_⟩, ?_, ?_⟩
  · cases recordGpsPoint r <;> simp
  · intro q hq
    simp [processRecordMsg, hq]
  · intro hq
    simp [processRecordMsg, hq]

/-- Claim C8, witness: a concrete `record` message with an altitude
field leaves the summary state of `initState` unchanged and appends its
sample and altitude. -/
theorem c8_record_frame_effect_witness :
    (⟨"record", [⟨"altitude", .float64 7⟩]⟩ : FitRecord).kind = "record" ∧
    (processRecord initState ⟨"record", [⟨"altitude", .float64 7⟩]⟩).duration_seconds
      = initState.duration_seconds ∧
    (processRecord initState ⟨"record", [⟨"altitude", .float64 7⟩]⟩).altitudes
      = initState.altitudes ++ [(7 : ℚ)] := by
  refine ⟨rfl, ?_, ?_⟩
  · exact (c8_record_frame_effect initState
      ⟨"record", [⟨"altitude", .float64 7⟩]⟩ rfl).1.2.2.1
  · exact (c8_record_frame_effect initState
      ⟨"record", [⟨"altitude", .float64 7⟩]⟩ rfl).2.2.2.1 7
      (by norm_num +decide [recordAltitude, fieldOr, get_field_value, List.find?])

/-! ## Chart slot facts -/

/-- Claim C9: a kept sensor sample with an absent timestamp still
occupies chart slot `j`: its timestamps entry is the empty string,
while the other five arrays carry the sample's optional values
unchanged. -/
theorem c9_absent_timestamp_empty_string (sd : List SensorPoint) (j : Nat)
    (p : SensorPoint) (h1 : (chartKept sd).get? j = some p)
    (h2 : p.timestamp = none) :
    (build_chart_data sd).timestamps.get? j = some "" ∧
    (build_chart_data sd).heart_rate.get? j = some p.heart_rate ∧
    (build_chart_data sd).power.get? j = some p.power ∧
    (build_chart_data sd).cadence.get? j = some p.cadence ∧
    (build_chart_data sd).speed.get? j = some p.speed ∧
    (build_chart_data sd).altitude.get? j = some p.altitude := by
  unfold build_chart_data
  refine ⟨?_, ?_, ?_, ?_, ?_, ?_⟩ <;>
    · rw [List.get?_map, h1]
      simp [h2]

/-- Claim C9, witness: the single all-absent sample occupies slot 0
with an empty-string timestamp. -/
theorem c9_absent_timestamp_empty_string_witness :
    (chartKept [blankSensorPoint]).get? 0 = some blankSensorPoint ∧
    blankSensorPoint.timestamp = none ∧
    (build_chart_data [blankSensorPoint]).timestamps.get? 0 = some "" := by
  have h1 : (chartKept [blankSensorPoint]).get? 0 = some blankSensorPoint := by
    norm_num +decide [chartKept, chartStep, max_points, blankSensorPoint]
  exact ⟨h1, rfl,
    (c9_absent_timestamp_empty_string [blankSensorPoint] 0 blankSensorPoint h1 rfl).1⟩

/-! ## Duration truncation facts -/

lemma rustF64AsI64_eq_floor (q : ℚ) (hq : 0 ≤ q) (hhi : q ≤ 2 ^ 63 - 1) :
    rustF64AsI64 q = ⌊q⌋ := by
  unfold rustF64AsI64
  rw [if_pos hq]
  have hc : ((2 ^ 63 - 1 : Int) : ℚ) = 2 ^ 63 - 1 := by push_cast; ring
  have h1 : ⌊q⌋ ≤ 2 ^ 63 - 1 := by
    have h2 : ⌊q⌋ ≤ ⌊(2 ^ 63 - 1 : ℚ)⌋ := Int.floor_le_floor hhi
    rw [← hc, Int.floor_intCast] at h2
    exact h2
  have h3 : (0 : Int) ≤ ⌊q⌋ := Int.floor_nonneg.mpr hq
  dsimp only
  omega

lemma rustF64AsI64_eq_ceil (q : ℚ) (hq : ¬ 0 ≤ q) (hlo : -(2 ^ 63 - 1) ≤ q) :
    rustF64AsI64 q = ⌈q⌉ := by
  unfold rustF64AsI64
  rw [if_neg hq]
  have hc : ((-(2 ^ 63 - 1) : Int) : ℚ) = -(2 ^ 63 - 1) := by push_cast; ring
  have h1 : ⌈q⌉ ≤ 0 := Int.ceil_le.mpr (by exact_mod_cast le_of_lt (not_le.mp hq))
  have h2 : -(2 ^ 63 - 1) ≤ ⌈q⌉ := by
    have h3 : ⌈(-(2 ^ 63 - 1) : ℚ)⌉ ≤ ⌈q⌉ := Int.ceil_le_ceil hlo
    rw [← hc, Int.ceil_intCast] at h3
    exact h3
  dsimp only
  omega

/-- The session duration update uses `total_elapsed_time` when it
coerces. -/
lemma sessionDuration_elapsed (old : Option Int) (r : FitRecord)
    (v : FitValue) (q : ℚ)
    (h1 : get_field_value r "total_elapsed_time" = some v)
    (h2 : value_to_f64 v = some q) :
    sessionDuration old r = some (rustF64AsI64 q) := by
  have hb : (get_field_value r "total_elapsed_time").bind value_to_f64 = some q := by
    rw [h1]
    exact h2
  unfold sessionDuration
  rw [hb]

/-- The session duration update falls back to `total_timer_time` when
the elapsed path produced nothing and the accumulator is unset. -/
lemma sessionDuration_timer (r : FitRecord) (v : FitValue) (q : ℚ)
    (h0 : (get_field_value r "total_elapsed_time").bind value_to_f64 = none)
    (h1 : get_field_value r "total_timer_time" = some v)
    (h2 : value_to_f64 v = some q) :
    sessionDuration none r = some (rustF64AsI64 q) := by
  have hb : (get_field_value r "total_timer_time").bind value_to_f64 = some q := by
    rw [h1]
    exact h2
  unfold sessionDuration
  rw [h0]
  dsimp only
  rw [hb]

/-- Claim C10: the stored duration is the device-reported seconds value
truncated toward zero — from `total_elapsed_time`, or from
`total_timer_time` when the elapsed path yields nothing — and for every
in-range value the truncation discards exactly the fractional part
without changing the sign. -/
theorem c10_duration_truncated_toward_zero (st : ParseState) (r : FitRecord)
    (hk : r.kind = "session") :
    (∀ v q, get_field_value r "total_elapsed_time" = some v →
      value_to_f64 v = some q →
      (processRecord st r).duration_seconds = some (rustF64AsI64 q)) ∧
    ((get_field_value r "total_elapsed_time").bind value_to_f64 = none →
      st.duration_seconds = none →
      ∀ v q, get_field_value r "total_timer_time" = some v →
      value_to_f64 v = some q →
      (processRecord st r).duration_seconds = some (rustF64AsI64 q)) ∧
    (∀ q : ℚ, |q| ≤ 2 ^ 63 - 1 →
      |(rustF64AsI64 q : ℚ)| ≤ |q| ∧ |q| < |(rustF64AsI64 q : ℚ)| + 1 ∧
      0 ≤ (rustF64AsI64 q : ℚ) * q) := by
  rw [processRecord_session st r hk]
  refine ⟨?_, ?_, ?_⟩
  · intro v q h1 h2
    exact sessionDuration_elapsed st.duration_seconds r v q h1 h2
  · intro h0 hold v q h1 h2
    show sessionDuration st.duration_seconds r = _
    rw [hold]
    exact sessionDuration_timer r v q h0 h1 h2
  · intro q hq
    obtain ⟨hlo, hhi⟩ := abs_le.mp hq
    by_cases h0 : 0 ≤ q
    · rw [rustF64AsI64_eq_floor q h0 hhi]
      have hf1 : ((⌊q⌋ : Int) : ℚ) ≤ q := Int.floor_le q
      have hf2 : q < (⌊q⌋ : ℚ) + 1 := Int.lt_floor_add_one q
      have hf3 : (0 : ℚ) ≤ ((⌊q⌋ : Int) : ℚ) := by
        have := Int.floor_nonneg.mpr h0
        exact_mod_cast this
      rw [abs_of_nonneg h0, abs_of_nonneg hf3]
      exact ⟨hf1, hf2, mul_nonneg hf3 h0⟩
    · have hneg : q < 0 := not_le.mp h0
      rw [rustF64AsI64_eq_ceil q h0 (by linarith)]
      have hc1 : q ≤ ((⌈q⌉ : Int) : ℚ) := Int.le_ceil q
      have hc2 : ((⌈q⌉ : Int) : ℚ) < q + 1 := Int.ceil_lt_add_one q
      have hc3 : ((⌈q⌉ : Int) : ℚ) ≤ 0 := by
        have h4 : ⌈q⌉ ≤ 0 := Int.ceil_le.mpr (by exact_mod_cast le_of_lt hneg)
        exact_mod_cast h4
      rw [abs_of_neg hneg, abs_of_nonpos hc3]
      refine ⟨by linarith, by linarith, ?_⟩
      have := mul_nonneg (neg_nonneg.mpr hc3) (neg_nonneg.mpr (le_of_lt hneg))
      calc (0 : ℚ) ≤ -((⌈q⌉ : Int) : ℚ) * -q := this
      _ = ((⌈q⌉ : Int) : ℚ) * q := by ring

/-- Claim C10, witness: an elapsed time of 3.5 seconds is stored as 3;
a negative -3.5 would truncate toward zero to -3. -/
theorem c10_duration_truncated_toward_zero_witness :
    (⟨"session", [⟨"total_elapsed_time", .float64 (7 / 2)⟩]⟩ : FitRecord).kind
      = "session" ∧
    (processRecord initState
        ⟨"session", [⟨"total_elapsed_time", .float64 (7 / 2)⟩]⟩).duration_seconds
      = some 3 := by
  refine ⟨rfl, ?_⟩
  have h := (c10_duration_truncated_toward_zero initState
    ⟨"session", [⟨"total_elapsed_time", .float64 (7 / 2)⟩]⟩ rfl).1
    (.float64 (7 / 2)) (7 / 2)
    (by norm_num +decide [get_field_value, List.find?]) rfl
  rw [h, rustF64AsI64_eq_floor (7 / 2) (by norm_num) (by norm_num)]
  norm_num

end FitCore
